import Mathlib

/-!
Verification of the geyser plugin and serializer of the
solana-snapshot-etl-tools repository, as a shallow embedding.

Conventions of the embedding:
* Machine bytes (`u8`) are modeled as `Nat` values; byte slices (`&[u8]`,
  `Vec<u8>`) as `List Nat`; a 32-byte public key as a `List Nat` of length 32.
* `HashSet` membership is modeled as membership in a `List` (the code only
  uses `contains`, `len`/`is_empty`, which depend on membership alone).
* A host call that panics is modeled by the `crashed` outcome, carrying the
  messages already dispatched before the panic; a call that returns
  `Err(e)` is modeled by `err e`; a successful call by `ok msgs` with the
  messages dispatched by the spawned tasks.
* `Result<(), TransactionError>` is modeled as `Except String Unit`, the
  error payload standing in for the (external) `TransactionError` value.
* `f64` is modeled as `Float`.
-/

namespace SnapshotEtl

/-- A 32-byte Solana public key, as its byte contents. -/
abbrev Pubkey := List Nat

/-- The mpl metadata program id, copied from `plugin.rs` (`MPL_METADATA`). -/
def MPL_METADATA : List Nat :=
  [11, 112, 101, 177, 227, 209, 124, 69, 56, 157, 82, 127, 107, 4, 195, 205,
   88, 184, 108, 115, 26, 160, 253, 181, 73, 182, 209, 188, 3, 248, 41, 70]

/-- The bytes of `solana_program::system_program::id()`
(`"11111111111111111111111111111111"` in base58): thirty-two zero bytes. -/
def systemProgramId : List Nat := List.replicate 32 0

/-- Host account representation `ReplicaAccountInfo` (V0_0_1). -/
structure ReplicaAccountInfo where
  pubkey : List Nat
  lamports : Nat
  owner : List Nat
  executable : Bool
  rent_epoch : Nat
  data : List Nat
  write_version : Nat

/-- Host account representation `ReplicaAccountInfoV2` (V0_0_2): the V0_0_1
fields plus an optional transaction signature. -/
structure ReplicaAccountInfoV2 where
  pubkey : List Nat
  lamports : Nat
  owner : List Nat
  executable : Bool
  rent_epoch : Nat
  data : List Nat
  write_version : Nat
  txn_signature : Option (List Nat)

/-- `AccountSelector` from `selectors.rs`. -/
structure AccountSelector where
  owners : List Pubkey
  startup : Option Bool
  deletion : Bool
  with_offchain : Option Bool

/-- `AccountSelector::is_selected` from `selectors.rs`. -/
def AccountSelector.is_selected (s : AccountSelector) (acct : ReplicaAccountInfo)
    (is_startup : Bool) : Bool :=
  if s.deletion && acct.lamports == 0 && acct.data.isEmpty
      && acct.owner == systemProgramId then
    true
  else
    (match s.startup with
     | some v => is_startup == v
     | none => true)
    && (s.owners.length == 0 || s.owners.contains acct.owner)

/-- `AccountSelector::is_selected_2` from `selectors.rs`. -/
def AccountSelector.is_selected_2 (s : AccountSelector) (acct : ReplicaAccountInfoV2)
    (is_startup : Bool) : Bool :=
  if s.deletion && acct.lamports == 0 && acct.data.isEmpty
      && acct.owner == systemProgramId then
    true
  else
    (match s.startup with
     | some v => is_startup == v
     | none => true)
    && (s.owners.length == 0 || s.owners.contains acct.owner)

/-- `AccountSelector::with_offchain` (the method; the unwrap is guarded by
`is_some`, so it is total). -/
def AccountSelector.withOffchain (s : AccountSelector) : Bool :=
  s.with_offchain.isSome && s.with_offchain.getD false

/-- `TransactionSelector` from `selectors.rs`. -/
structure TransactionSelector where
  programs : List Pubkey

/-- `TransactionSelector::is_empty`. -/
def TransactionSelector.is_empty (s : TransactionSelector) : Bool :=
  s.programs.isEmpty

/-- `TransactionSelector::is_selected`. -/
def TransactionSelector.is_selected (s : TransactionSelector) (pgm : Pubkey) : Bool :=
  s.programs.contains pgm

/-- `TransactionSelector::is_selected_in_range`: the `for` loop returning
`true` on the first selected key. -/
def TransactionSelector.is_selected_in_range (s : TransactionSelector) :
    List Pubkey → Bool
  | [] => false
  | pgm :: rest =>
    if s.is_selected pgm then true else s.is_selected_in_range rest

end SnapshotEtl

open SnapshotEtl

/-- C3: `is_selected` returns true iff either the deletion tombstone applies
(deletion enabled, zero lamports, empty data, owner = system program), or
else the startup filter is absent or matched and the owner allowlist is
empty or contains the owner. -/
theorem c3_is_selected_spec (sel : AccountSelector) (acct : ReplicaAccountInfo)
    (is_startup : Bool) :
    sel.is_selected acct is_startup = true ↔
      ((sel.deletion = true ∧ acct.lamports = 0 ∧ acct.data = []
          ∧ acct.owner = systemProgramId)
       ∨ ((∀ v, sel.startup = some v → is_startup = v)
          ∧ (sel.owners = [] ∨ acct.owner ∈ sel.owners))) := by
  unfold AccountSelector.is_selected
  split
  · rename_i h
    simp only [Bool.and_eq_true, beq_iff_eq, List.isEmpty_iff] at h
    exact iff_of_true rfl (Or.inl ⟨h.1.1.1, h.1.1.2, h.1.2, h.2⟩)
  · rename_i h
    simp only [Bool.and_eq_true, beq_iff_eq, List.isEmpty_iff] at h
    constructor
    · intro hsel
      rw [Bool.and_eq_true] at hsel
      refine Or.inr ⟨?_, ?_⟩
      · intro v hv
        have h1 := hsel.1
        rw [hv] at h1
        simpa [beq_iff_eq] using h1
      · have h2 := hsel.2
        simpa [List.length_eq_zero] using h2
    · rintro (⟨hd, hl, hdata, how⟩ | ⟨h1, h2⟩)
      · exact absurd ⟨⟨⟨hd, hl⟩, hdata⟩, how⟩ h
      · rw [Bool.and_eq_true]
        constructor
        · cases hs : sel.startup with
          | none => simp
          | some w => simp [beq_iff_eq, h1 w hs]
        · simpa [List.length_eq_zero] using h2

/-- Witness for C3: on a concrete deletion tombstone the selector accepts. -/
theorem c3_is_selected_spec_witness :
    AccountSelector.is_selected
      ⟨[MPL_METADATA], some false, true, none⟩
      ⟨List.replicate 32 1, 0, systemProgramId, false, 0, [], 7⟩ true = true :=
  (c3_is_selected_spec ⟨[MPL_METADATA], some false, true, none⟩
      ⟨List.replicate 32 1, 0, systemProgramId, false, 0, [], 7⟩ true).mpr
    (Or.inl ⟨rfl, rfl, rfl, rfl⟩)

/-- C9: the two host account representations have identical selection
semantics: whenever they agree on lamports, owner and data, `is_selected`
and `is_selected_2` agree for every selector configuration and startup
flag. -/
theorem c9_selector_versions_agree (sel : AccountSelector)
    (a1 : ReplicaAccountInfo) (a2 : ReplicaAccountInfoV2) (is_startup : Bool)
    (hl : a1.lamports = a2.lamports) (ho : a1.owner = a2.owner)
    (hd : a1.data = a2.data) :
    sel.is_selected a1 is_startup = sel.is_selected_2 a2 is_startup := by
  unfold AccountSelector.is_selected AccountSelector.is_selected_2
  rw [hl, ho, hd]

/-- Witness for C9 at a concrete pair of representations differing only in
the transaction signature. -/
theorem c9_selector_versions_agree_witness :
    AccountSelector.is_selected ⟨[], none, false, none⟩
        ⟨List.replicate 32 2, 5, MPL_METADATA, false, 1, [4, 4], 9⟩ false
      = AccountSelector.is_selected_2 ⟨[], none, false, none⟩
        ⟨List.replicate 32 2, 5, MPL_METADATA, false, 1, [4, 4], 9,
          some (List.replicate 64 3)⟩ false :=
  c9_selector_versions_agree ⟨[], none, false, none⟩
    ⟨List.replicate 32 2, 5, MPL_METADATA, false, 1, [4, 4], 9⟩
    ⟨List.replicate 32 2, 5, MPL_METADATA, false, 1, [4, 4], 9,
      some (List.replicate 64 3)⟩ false rfl rfl rfl

namespace SnapshotEtl

/-- Whether a byte is a UTF-8 continuation byte (`0x80..=0xBF`). -/
def isUtf8Cont (b : Nat) : Bool := 0x80 ≤ b && b ≤ 0xBF

/-- Validity of a byte sequence as UTF-8, i.e. whether
`str::from_utf8(bytes)` returns `Ok`: ASCII bytes stand alone; two-, three-
and four-byte sequences follow RFC 3629, excluding overlong encodings,
surrogates (`0xED` limits its first continuation to `0x80..=0x9F`) and code
points above `U+10FFFF` (`0xF4` limits its first continuation to
`0x80..=0x8F`). -/
def utf8Valid : List Nat → Bool
  | [] => true
  | b :: rest =>
    if b ≤ 0x7F then utf8Valid rest
    else if 0xC2 ≤ b && b ≤ 0xDF then
      match rest with
      | c1 :: rest2 => isUtf8Cont c1 && utf8Valid rest2
      | [] => false
    else if b == 0xE0 then
      match rest with
      | c1 :: c2 :: rest2 =>
        (0xA0 ≤ c1 && c1 ≤ 0xBF) && isUtf8Cont c2 && utf8Valid rest2
      | _ => false
    else if (0xE1 ≤ b && b ≤ 0xEC) || b == 0xEE || b == 0xEF then
      match rest with
      | c1 :: c2 :: rest2 => isUtf8Cont c1 && isUtf8Cont c2 && utf8Valid rest2
      | _ => false
    else if b == 0xED then
      match rest with
      | c1 :: c2 :: rest2 =>
        (0x80 ≤ c1 && c1 ≤ 0x9F) && isUtf8Cont c2 && utf8Valid rest2
      | _ => false
    else if b == 0xF0 then
      match rest with
      | c1 :: c2 :: c3 :: rest2 =>
        (0x90 ≤ c1 && c1 ≤ 0xBF) && isUtf8Cont c2 && isUtf8Cont c3
          && utf8Valid rest2
      | _ => false
    else if 0xF1 ≤ b && b ≤ 0xF3 then
      match rest with
      | c1 :: c2 :: c3 :: rest2 =>
        isUtf8Cont c1 && isUtf8Cont c2 && isUtf8Cont c3 && utf8Valid rest2
      | _ => false
    else if b == 0xF4 then
      match rest with
      | c1 :: c2 :: c3 :: rest2 =>
        (0x80 ≤ c1 && c1 ≤ 0x8F) && isUtf8Cont c2 && isUtf8Cont c3
          && utf8Valid rest2
      | _ => false
    else false

/-- `AccountUpdate` message from the serializer crate (`geyser.rs`). -/
structure AccountUpdate where
  key : Pubkey
  lamports : Nat
  owner : Pubkey
  executable : Bool
  rent_epoch : Nat
  data : List Nat
  write_version : Nat
  slot : Nat
  is_startup : Bool

/-- `NftOffChainDataNotify` message; the source carries `pubkey`/`uri` as
`String`s obtained by base58- and UTF-8-decoding — modeled at byte level:
the key bytes and the URI slice bytes from which those strings are built. -/
structure NftOffChainDataNotify where
  pubkey : Pubkey
  uri : List Nat
  slot : Nat
  is_startup : Bool

/-- `UiTokenAmount` of a token balance (`ui_amount` is an optional `f64`). -/
structure UiTokenAmount where
  ui_amount : Option Float
  decimals : Nat
  amount : String
  ui_amount_string : String

/-- `TransactionTokenBalance` of transaction status metadata. -/
structure TransactionTokenBalance where
  account_index : Nat
  mint : String
  owner : String
  ui_token_amount : UiTokenAmount
  program_id : String

/-- `solana_transaction_status::RewardType`. -/
inductive RewardType where
  | Fee
  | Rent
  | Staking
  | Voting

/-- `Reward` entry of transaction status metadata. -/
structure Reward where
  pubkey : String
  lamports : Int
  post_balance : Nat
  reward_type : Option RewardType
  commission : Option Nat

/-- `CompiledInstruction`: program id index, account index list, opaque data. -/
structure CompiledInstruction where
  program_id_index : Nat
  accounts : List Nat
  data : List Nat

/-- `InnerInstructions`: instructions grouped by originating index. -/
structure InnerInstructions where
  index : Nat
  instructions : List CompiledInstruction

/-- `TransactionStatusMeta`; `status : Result<(), TransactionError>` is
modeled as `Except String Unit` with the error payload standing in for the
external `TransactionError` value. -/
structure TransactionStatusMeta where
  status : Except String Unit
  fee : Nat
  pre_balances : List Nat
  post_balances : List Nat
  inner_instructions : Option (List InnerInstructions)
  log_messages : Option (List String)
  pre_token_balances : Option (List TransactionTokenBalance)
  post_token_balances : Option (List TransactionTokenBalance)
  rewards : Option (List Reward)

/-- The host's `SanitizedTransaction`, modeled at the interface level by
the account-key list reported by `transaction.message().account_keys()`,
which is all `notify_transaction` reads from it. -/
structure HostSanitizedTransaction where
  account_keys : List Pubkey

/-- Host `ReplicaTransactionInfo` (V0_0_1). -/
structure ReplicaTransactionInfo where
  signature : List Nat
  is_vote : Bool
  transaction : HostSanitizedTransaction
  transaction_status_meta : TransactionStatusMeta

/-- Host `ReplicaTransactionInfoV2` (V0_0_2): the V0_0_1 fields plus the
transaction's index in its block. -/
structure ReplicaTransactionInfoV2 where
  signature : List Nat
  is_vote : Bool
  transaction : HostSanitizedTransaction
  transaction_status_meta : TransactionStatusMeta
  index : Nat

/-- `ReplicaTransactionInfoVersions`. -/
inductive ReplicaTransactionInfoVersions where
  | V0_0_1 (tx : ReplicaTransactionInfo)
  | V0_0_2 (tx : ReplicaTransactionInfoV2)

/-- `ReplicaAccountInfoVersions`. -/
inductive ReplicaAccountInfoVersions where
  | V0_0_1 (acct : ReplicaAccountInfo)
  | V0_0_2 (acct : ReplicaAccountInfoV2)

/-- `TransactionNotify` message (`geyser.rs`); its `transaction` field holds
the converted host transaction, modeled at the same interface level. -/
structure TransactionNotify where
  signature : List Nat
  is_vote : Bool
  slot : Nat
  transaction : HostSanitizedTransaction
  transaction_meta : TransactionStatusMeta

/-- `TransactionNotify::new_from_replica_transaction_info`. -/
def TransactionNotify.new_from_replica_transaction_info
    (rti : ReplicaTransactionInfo) (slot : Nat) : TransactionNotify :=
  { signature := rti.signature
  , is_vote := rti.is_vote
  , slot
  , transaction := rti.transaction
  , transaction_meta := rti.transaction_status_meta }

/-- `MetadataNotify` message (`geyser.rs`). -/
structure MetadataNotify where
  slot : Nat
  blockhash : String
  rewards : String
  block_time : Int
  block_height : Nat

/-- Host `ReplicaBlockInfo`, at the interface level: `rewards_json` is the
outcome of `serde_json::to_string(rbi.rewards)` (external encoding). -/
structure ReplicaBlockInfo where
  slot : Nat
  blockhash : String
  rewards_json : Except String String
  block_time : Option Int
  block_height : Option Nat

/-- `ReplicaBlockInfoVersions`. -/
inductive ReplicaBlockInfoVersions where
  | V0_0_1 (block_info : ReplicaBlockInfo)

/-- `MetadataNotify::new_from_replica_block_info`: substitutes `""` for an
unencodable rewards list and `0` for missing block time or height. -/
def MetadataNotify.new_from_replica_block_info (rbi : ReplicaBlockInfo) :
    MetadataNotify :=
  { slot := rbi.slot
  , blockhash := rbi.blockhash
  , rewards := match rbi.rewards_json with | .ok s => s | .error _ => ""
  , block_time := rbi.block_time.getD 0
  , block_height := rbi.block_height.getD 0 }

/-- The `Message` union of `types.rs`. -/
inductive Message where
  | AccountUpdate (a : AccountUpdate)
  | MetadataNotify (m : MetadataNotify)
  | TransactionNotify (t : TransactionNotify)
  | NftOffChainDataNotify (n : NftOffChainDataNotify)
  | FinalizedSlotNotify (slot : Nat)

/-- The `ExchangeType` routing tag of `types.rs`. -/
inductive ExchangeType where
  | Account
  | Transaction
  | Metadata
  | NftData
  | Slot

/-- The `GeyserPluginError` kinds the plugin constructs. -/
inductive GeyserPluginError where
  | AccountsUpdateError (msg : String)
  | SlotStatusUpdateError (msg : String)
  | Custom (msg : String)

/-- The `UNINIT` message of `plugin.rs`. -/
def UNINIT : String := "RabbitMQ plugin not initialized yet!"

/-- The selector state held by an initialized plugin (`Inner`); the runtime
and producer handles carry no selection logic. -/
structure Inner where
  acct_sel : AccountSelector
  tx_sel : TransactionSelector

/-- Outcome of one host-facing call: `ok` with the messages handed to
dispatch tasks, `err` with the returned plugin error, or `crashed` when the
call panics, carrying the messages already dispatched before the panic. -/
inductive Outcome where
  | ok (msgs : List (Message × ExchangeType))
  | err (e : GeyserPluginError)
  | crashed (msgs : List (Message × ExchangeType))

/-- The `start` offset computed in `update_account`:
`1 + 32 + 32 + 4 + 32 + 4 + 10 + 4`. -/
def metadataUriStart : Nat := 1 + 32 + 32 + 4 + 32 + 4 + 10 + 4

/-- `GeyserPluginRabbitMq::update_account`. Both version arms duplicate the
same logic in the source and are duplicated here. Indexing `acct.data[0]`
on empty data and slicing `acct.data[start..start + 200]` on data shorter
than `start + 200` panic, after the primary dispatch has been scheduled. -/
def update_account (plugin : Option Inner) (account : ReplicaAccountInfoVersions)
    (slot : Nat) (is_startup : Bool) : Outcome :=
  match plugin with
  | none => .err (.AccountsUpdateError UNINIT)
  | some this =>
    match account with
    | .V0_0_1 acct =>
      if !(this.acct_sel.is_selected acct is_startup) then .ok []
      else if !(acct.pubkey.length == 32 && acct.owner.length == 32) then
        .err (.Custom "could not convert slice to array")
      else
        let msg_data : AccountUpdate :=
          { key := acct.pubkey, lamports := acct.lamports, owner := acct.owner
          , executable := acct.executable, rent_epoch := acct.rent_epoch
          , data := acct.data, write_version := acct.write_version
          , slot, is_startup }
        let primary := (Message.AccountUpdate msg_data, ExchangeType.Account)
        if this.acct_sel.withOffchain && acct.owner == MPL_METADATA then
          match acct.data with
          | [] => .crashed [primary]
          | b0 :: _ =>
            if b0 == 4 then
              if acct.data.length < metadataUriStart + 200 then .crashed [primary]
              else
                let metadata_uri_bytes := (acct.data.drop metadataUriStart).take 200
                if utf8Valid metadata_uri_bytes then
                  .ok [primary,
                    (Message.NftOffChainDataNotify
                      { pubkey := acct.pubkey, uri := metadata_uri_bytes
                      , slot, is_startup }, ExchangeType.NftData)]
                else .ok [primary]
            else .ok [primary]
        else .ok [primary]
    | .V0_0_2 acct =>
      if !(this.acct_sel.is_selected_2 acct is_startup) then .ok []
      else if !(acct.pubkey.length == 32 && acct.owner.length == 32) then
        .err (.Custom "could not convert slice to array")
      else
        let msg_data : AccountUpdate :=
          { key := acct.pubkey, lamports := acct.lamports, owner := acct.owner
          , executable := acct.executable, rent_epoch := acct.rent_epoch
          , data := acct.data, write_version := acct.write_version
          , slot, is_startup }
        let primary := (Message.AccountUpdate msg_data, ExchangeType.Account)
        if this.acct_sel.withOffchain && acct.owner == MPL_METADATA then
          match acct.data with
          | [] => .crashed [primary]
          | b0 :: _ =>
            if b0 == 4 then
              if acct.data.length < metadataUriStart + 200 then .crashed [primary]
              else
                let metadata_uri_bytes := (acct.data.drop metadataUriStart).take 200
                if utf8Valid metadata_uri_bytes then
                  .ok [primary,
                    (Message.NftOffChainDataNotify
                      { pubkey := acct.pubkey, uri := metadata_uri_bytes
                      , slot, is_startup }, ExchangeType.NftData)]
                else .ok [primary]
            else .ok [primary]
        else .ok [primary]

/-- `SlotStatus` of the geyser plugin interface. -/
inductive SlotStatus where
  | Processed
  | Rooted
  | Confirmed

/-- `GeyserPluginRabbitMq::update_slot_status`. -/
def update_slot_status (plugin : Option Inner) (slot : Nat) (_parent : Option Nat)
    (status : SlotStatus) : Outcome :=
  match plugin with
  | none => .err (.SlotStatusUpdateError UNINIT)
  | some _this =>
    match status with
    | .Rooted => .ok [(Message.FinalizedSlotNotify slot, ExchangeType.Slot)]
    | _ => .ok []

/-- `GeyserPluginRabbitMq::notify_transaction`. -/
def notify_transaction (plugin : Option Inner)
    (transaction : ReplicaTransactionInfoVersions) (slot : Nat) : Outcome :=
  match plugin with
  | none => .err (.Custom UNINIT)
  | some this =>
    match transaction with
    | .V0_0_1 tx =>
      if (match tx.transaction_status_meta.status with
          | .error _ => true
          | .ok _ => false) then .ok []
      else if !(this.tx_sel.is_selected_in_range tx.transaction.account_keys) then
        .ok []
      else
        .ok [(Message.TransactionNotify
              (TransactionNotify.new_from_replica_transaction_info tx slot),
            ExchangeType.Transaction)]
    | .V0_0_2 _tx => .ok []

/-- `GeyserPluginRabbitMq::notify_block_metadata`. -/
def notify_block_metadata (plugin : Option Inner)
    (block_info : ReplicaBlockInfoVersions) : Outcome :=
  match plugin with
  | none => .err (.Custom UNINIT)
  | some _this =>
    match block_info with
    | .V0_0_1 bi =>
      .ok [(Message.MetadataNotify (MetadataNotify.new_from_replica_block_info bi),
        ExchangeType.Metadata)]

/-- `GeyserPluginRabbitMq::account_data_notifications_enabled`: returns
`true` without touching the plugin state. -/
def account_data_notifications_enabled (_plugin : Option Inner) : Bool := true

/-- `GeyserPluginRabbitMq::transaction_notifications_enabled`:
`expect_inner` panics when the plugin is uninitialized, modeled by `none`. -/
def transaction_notifications_enabled (plugin : Option Inner) : Option Bool :=
  match plugin with
  | none => none
  | some this => some (!this.tx_sel.is_empty)

end SnapshotEtl

namespace SnapshotEtl

/-- A selector configuration with the off-chain capability enabled, an
empty owner allowlist, no startup filter, deletion disabled. -/
def offchainSelector : AccountSelector := ⟨[], none, false, some true⟩

/-- Plugin state holding `offchainSelector` and an empty program allowlist. -/
def offchainInner : Inner := ⟨offchainSelector, ⟨[]⟩⟩

/-- A metadata account of 322 data bytes: version byte `4`, bytes `1..118`
equal to `48`, byte `119` equal to `65`, bytes `120..321` equal to `48`. -/
def acctC1 : ReplicaAccountInfo :=
  ⟨List.replicate 32 7, 10, MPL_METADATA, false, 0,
   4 :: (List.replicate 118 48 ++ 65 :: List.replicate 202 48), 1⟩

/-- A metadata account whose data is the single byte `4`. -/
def acctC2 : ReplicaAccountInfo :=
  ⟨List.replicate 32 7, 10, MPL_METADATA, false, 0, [4], 1⟩

/-- A metadata account of 322 data bytes with the invalid UTF-8 byte `255`
at offset 119. -/
def acctC2W : ReplicaAccountInfo :=
  ⟨List.replicate 32 7, 10, MPL_METADATA, false, 0,
   4 :: (List.replicate 118 48 ++ 255 :: List.replicate 202 48), 1⟩

end SnapshotEtl

set_option maxRecDepth 8000 in
/-- C1 counterexample: on a concrete well-formed metadata account the
extracted URI is the 200-byte slice at offset
119 = 1 + 32 + 32 + 4 + 32 + 4 + 10 + 4, which differs from the 200-byte
slice at offset 122 claimed by the spec. -/
theorem c1_counterexample :
    update_account (some offchainInner) (.V0_0_1 acctC1) 5 false
        = .ok [(Message.AccountUpdate
                ⟨List.replicate 32 7, 10, MPL_METADATA, false, 0, acctC1.data,
                 1, 5, false⟩,
              ExchangeType.Account),
             (Message.NftOffChainDataNotify
                ⟨List.replicate 32 7, 65 :: List.replicate 199 48, 5, false⟩,
              ExchangeType.NftData)]
      ∧ (65 :: List.replicate 199 48) ≠ (acctC1.data.drop 122).take 200 := by
  exact ⟨rfl, by decide⟩

/-- C1 (amended): for every selected account update with the off-chain
capability set, owner equal to the metadata program, first data byte `4`,
a 32-byte key, data covering the slice, and a UTF-8-valid slice, the
extracted URI is exactly the 200-byte slice of the account data beginning
at byte offset 119 (computed as 1 + 32 + 32 + 4 + 32 + 4 + 10 + 4). -/
theorem c1_uri_offset (inner : Inner) (acct : ReplicaAccountInfo) (slot : Nat)
    (is_startup : Bool)
    (hsel : inner.acct_sel.is_selected acct is_startup = true)
    (hpk : acct.pubkey.length = 32)
    (hoff : inner.acct_sel.withOffchain = true)
    (hown : acct.owner = MPL_METADATA)
    (hfirst : acct.data.head? = some 4)
    (hlen : metadataUriStart + 200 ≤ acct.data.length)
    (hutf : utf8Valid ((acct.data.drop metadataUriStart).take 200) = true) :
    update_account (some inner) (.V0_0_1 acct) slot is_startup
      = .ok [(Message.AccountUpdate
              ⟨acct.pubkey, acct.lamports, acct.owner, acct.executable,
               acct.rent_epoch, acct.data, acct.write_version, slot, is_startup⟩,
            ExchangeType.Account),
           (Message.NftOffChainDataNotify
              ⟨acct.pubkey, (acct.data.drop metadataUriStart).take 200, slot,
               is_startup⟩,
            ExchangeType.NftData)] := by
  obtain ⟨t, ht⟩ : ∃ t, acct.data = 4 :: t := by
    cases hdta : acct.data with
    | nil => rw [hdta] at hfirst; exact absurd hfirst (by simp)
    | cons b0 tl =>
      rw [hdta] at hfirst
      simp only [List.head?_cons, Option.some.injEq] at hfirst
      exact ⟨tl, by rw [hfirst]⟩
  have hmpl : MPL_METADATA.length = 32 := rfl
  have hnotlt : ¬ (t.length < metadataUriStart + 199) := by
    rw [ht] at hlen
    simp only [List.length_cons] at hlen
    omega
  rw [ht] at hutf
  simp [update_account, hsel, hpk, hoff, hown, ht, hnotlt, hutf, hmpl]

set_option maxRecDepth 8000 in
/-- Witness for C1 (amended) at the concrete account `acctC1`. -/
theorem c1_uri_offset_witness :
    update_account (some offchainInner) (.V0_0_1 acctC1) 5 false
      = .ok [(Message.AccountUpdate
              ⟨acctC1.pubkey, acctC1.lamports, acctC1.owner, acctC1.executable,
               acctC1.rent_epoch, acctC1.data, acctC1.write_version, 5, false⟩,
            ExchangeType.Account),
           (Message.NftOffChainDataNotify
              ⟨acctC1.pubkey, (acctC1.data.drop metadataUriStart).take 200, 5,
               false⟩,
            ExchangeType.NftData)] :=
  c1_uri_offset offchainInner acctC1 5 false (by decide) (by decide) (by decide)
    (by decide) (by decide) (by decide) (by decide)

/-- C2 counterexample: on a selected metadata account whose data is the
single byte `4` (shorter than the slice end), the call panics after the
primary dispatch instead of returning success. -/
theorem c2_counterexample :
    update_account (some offchainInner) (.V0_0_1 acctC2) 5 false
      = .crashed [(Message.AccountUpdate
          ⟨List.replicate 32 7, 10, MPL_METADATA, false, 0, [4], 1, 5, false⟩,
        ExchangeType.Account)] := rfl

/-- C2 (amended): for every selected account update whose data covers the
URI slice (length at least 319), if the slice fails UTF-8 decoding only the
secondary message is dropped: exactly the primary `AccountUpdate` is
dispatched and the call returns success; data shorter than the slice end
instead panics after the primary dispatch (see the counterexample). -/
theorem c2_utf8_failure_drops_secondary (inner : Inner) (acct : ReplicaAccountInfo)
    (slot : Nat) (is_startup : Bool)
    (hsel : inner.acct_sel.is_selected acct is_startup = true)
    (hpk : acct.pubkey.length = 32)
    (hown : acct.owner = MPL_METADATA)
    (hlen : metadataUriStart + 200 ≤ acct.data.length)
    (hutf : utf8Valid ((acct.data.drop metadataUriStart).take 200) = false) :
    update_account (some inner) (.V0_0_1 acct) slot is_startup
      = .ok [(Message.AccountUpdate
          ⟨acct.pubkey, acct.lamports, acct.owner, acct.executable,
           acct.rent_epoch, acct.data, acct.write_version, slot, is_startup⟩,
        ExchangeType.Account)] := by
  obtain ⟨b0, t, ht⟩ : ∃ b0 t, acct.data = b0 :: t := by
    cases hdta : acct.data with
    | nil => rw [hdta] at hlen; simp [metadataUriStart] at hlen
    | cons b0 tl => exact ⟨b0, tl, rfl⟩
  have hmpl : MPL_METADATA.length = 32 := rfl
  have hnotlt : ¬ (t.length < metadataUriStart + 199) := by
    rw [ht] at hlen
    simp only [List.length_cons] at hlen
    omega
  rw [ht] at hutf
  by_cases hwo : inner.acct_sel.withOffchain = true
  · by_cases hb : b0 = 4
    · subst hb
      simp [update_account, hsel, hpk, hmpl, hown, hwo, ht, hnotlt, hutf]
    · have hb4 : (b0 == 4) = false := by simp [hb]
      simp [update_account, hsel, hpk, hmpl, hown, hwo, ht, hb4]
  · rw [Bool.not_eq_true] at hwo
    simp [update_account, hsel, hpk, hmpl, hown, hwo, ht]

set_option maxRecDepth 8000 in
/-- Witness for C2 (amended) at the concrete account `acctC2W`, whose URI
slice starts with the invalid byte `255`. -/
theorem c2_utf8_failure_drops_secondary_witness :
    update_account (some offchainInner) (.V0_0_1 acctC2W) 5 false
      = .ok [(Message.AccountUpdate
          ⟨acctC2W.pubkey, acctC2W.lamports, acctC2W.owner, acctC2W.executable,
           acctC2W.rent_epoch, acctC2W.data, acctC2W.write_version, 5, false⟩,
        ExchangeType.Account)] :=
  c2_utf8_failure_drops_secondary offchainInner acctC2W 5 false (by decide)
    (by decide) (by decide) (by decide) (by decide)

/-- Helper: the selection loop of `is_selected_in_range` computes `any`
membership of the keys in the program allowlist. -/
theorem is_selected_in_range_eq_any (sel : TransactionSelector) (keys : List Pubkey) :
    sel.is_selected_in_range keys
      = keys.any (fun k => sel.programs.contains k) := by
  induction keys with
  | nil => rfl
  | cons k rest ih =>
    rw [TransactionSelector.is_selected_in_range, List.any_cons, ← ih]
    simp only [TransactionSelector.is_selected]
    by_cases h : sel.programs.contains k = true
    · simp [h]
    · rw [Bool.not_eq_true] at h
      simp [h]

/-- C4: `is_selected_in_range` holds iff some key is in the program
allowlist; an empty allowlist rejects every input, reports `is_empty`, and
makes the transaction-notifications capability report false. -/
theorem c4_transaction_selector_spec (sel : TransactionSelector) (keys : List Pubkey) :
    (sel.is_selected_in_range keys = true ↔ ∃ k ∈ keys, k ∈ sel.programs)
    ∧ (sel.programs = [] →
        sel.is_selected_in_range keys = false
        ∧ sel.is_empty = true
        ∧ ∀ inner : Inner, inner.tx_sel = sel →
            transaction_notifications_enabled (some inner) = some false) := by
  have hany := is_selected_in_range_eq_any sel keys
  constructor
  · rw [hany]
    simp [List.any_eq_true]
  · intro hempty
    refine ⟨?_, ?_, ?_⟩
    · rw [hany, hempty]; simp
    · rw [TransactionSelector.is_empty, hempty]; rfl
    · intro inner hinner
      simp [transaction_notifications_enabled, TransactionSelector.is_empty,
        hinner, hempty]

/-- Witness for C4 at the empty allowlist and a concrete key list. -/
theorem c4_transaction_selector_spec_witness :
    TransactionSelector.is_selected_in_range ⟨[]⟩ [MPL_METADATA] = false
      ∧ TransactionSelector.is_empty ⟨[]⟩ = true
      ∧ transaction_notifications_enabled
          (some ⟨⟨[], none, false, none⟩, ⟨[]⟩⟩) = some false := by
  obtain ⟨h1, h2, h3⟩ := (c4_transaction_selector_spec ⟨[]⟩ [MPL_METADATA]).2 rfl
  exact ⟨h1, h2, h3 ⟨⟨[], none, false, none⟩, ⟨[]⟩⟩ rfl⟩

/-- C6: `notify_transaction` rejects error-status transactions before the
selector is consulted (for every selector configuration); an ok-status
transaction is rejected iff no account key matches the program allowlist;
otherwise exactly one `TransactionNotify` built from the host transaction
and metadata is dispatched. -/
theorem c6_notify_transaction (inner : Inner) (tx : ReplicaTransactionInfo)
    (slot : Nat) :
    ((∃ e, tx.transaction_status_meta.status = .error e) →
      notify_transaction (some inner) (.V0_0_1 tx) slot = .ok [])
    ∧ (tx.transaction_status_meta.status = .ok () →
        (notify_transaction (some inner) (.V0_0_1 tx) slot = .ok []
          ↔ inner.tx_sel.is_selected_in_range tx.transaction.account_keys
              = false))
    ∧ (tx.transaction_status_meta.status = .ok () →
        inner.tx_sel.is_selected_in_range tx.transaction.account_keys = true →
        notify_transaction (some inner) (.V0_0_1 tx) slot
          = .ok [(Message.TransactionNotify
              ⟨tx.signature, tx.is_vote, slot, tx.transaction,
               tx.transaction_status_meta⟩,
            ExchangeType.Transaction)]) := by
  refine ⟨?_, ?_, ?_⟩
  · rintro ⟨e, he⟩
    simp [notify_transaction, he]
  · intro hok
    by_cases hsel : inner.tx_sel.is_selected_in_range tx.transaction.account_keys
        = true
    · simp [notify_transaction, hok, hsel]
    · rw [Bool.not_eq_true] at hsel
      simp [notify_transaction, hok, hsel]
  · intro hok hsel
    simp [notify_transaction, hok, hsel,
      TransactionNotify.new_from_replica_transaction_info]

/-- Witness for C6: a concrete selected ok-status transaction dispatches
exactly one `TransactionNotify`. -/
theorem c6_notify_transaction_witness :
    notify_transaction
        (some ⟨⟨[], none, false, none⟩, ⟨[List.replicate 32 9]⟩⟩)
        (.V0_0_1 ⟨List.replicate 64 1, false, ⟨[List.replicate 32 9]⟩,
          ⟨.ok (), 5, [1], [1], none, none, none, none, none⟩⟩) 7
      = .ok [(Message.TransactionNotify
          ⟨List.replicate 64 1, false, 7, ⟨[List.replicate 32 9]⟩,
           ⟨.ok (), 5, [1], [1], none, none, none, none, none⟩⟩,
        ExchangeType.Transaction)] :=
  (c6_notify_transaction ⟨⟨[], none, false, none⟩, ⟨[List.replicate 32 9]⟩⟩
      ⟨List.replicate 64 1, false, ⟨[List.replicate 32 9]⟩,
        ⟨.ok (), 5, [1], [1], none, none, none, none, none⟩⟩ 7).2.2
    rfl (by decide)

/-- C7: a rooted status at slot N dispatches exactly one FinalizedSlot(N)
message to the Slot topic; every other status dispatches nothing and the
call still succeeds. -/
theorem c7_slot_status (inner : Inner) (slot : Nat) (parent : Option Nat)
    (status : SlotStatus) :
    (status = SlotStatus.Rooted →
      update_slot_status (some inner) slot parent status
        = .ok [(Message.FinalizedSlotNotify slot, ExchangeType.Slot)])
    ∧ (status ≠ SlotStatus.Rooted →
      update_slot_status (some inner) slot parent status = .ok []) := by
  constructor
  · intro h; subst h; rfl
  · intro h
    cases status with
    | Rooted => exact absurd rfl h
    | Processed => rfl
    | Confirmed => rfl

/-- Witness for C7: a concrete rooted slot produces its FinalizedSlot
message, and a concrete processed slot produces none. -/
theorem c7_slot_status_witness :
    update_slot_status (some offchainInner) 42 none SlotStatus.Rooted
        = .ok [(Message.FinalizedSlotNotify 42, ExchangeType.Slot)]
      ∧ update_slot_status (some offchainInner) 42 none SlotStatus.Processed
        = .ok [] :=
  ⟨(c7_slot_status offchainInner 42 none SlotStatus.Rooted).1 rfl,
   (c7_slot_status offchainInner 42 none SlotStatus.Processed).2 (by simp)⟩

/-- C8 counterexample: with the plugin uninitialized, the account-data
capability query succeeds (returns `true`, no failure at all) and the
transaction capability query panics (`expect`), modeled by `none` — neither
returns a "not initialized" failure. -/
theorem c8_counterexample :
    account_data_notifications_enabled none = true
      ∧ transaction_notifications_enabled none = none := ⟨rfl, rfl⟩

/-- C8 (amended): before initialization the four notification entry points
return their explicit "not initialized" failures; the capability queries do
not: `account_data_notifications_enabled` returns `true` regardless of
state, and `transaction_notifications_enabled` panics. -/
theorem c8_uninitialized_behaviour (account : ReplicaAccountInfoVersions)
    (slot : Nat) (is_startup : Bool) (parent : Option Nat) (status : SlotStatus)
    (tx : ReplicaTransactionInfoVersions) (slot2 : Nat)
    (bi : ReplicaBlockInfoVersions) :
    update_account none account slot is_startup
        = .err (.AccountsUpdateError UNINIT)
      ∧ update_slot_status none slot parent status
        = .err (.SlotStatusUpdateError UNINIT)
      ∧ notify_transaction none tx slot2 = .err (.Custom UNINIT)
      ∧ notify_block_metadata none bi = .err (.Custom UNINIT)
      ∧ account_data_notifications_enabled none = true
      ∧ transaction_notifications_enabled none = none :=
  ⟨rfl, rfl, rfl, rfl, rfl, rfl⟩

/-- C10: every V0_0_2 transaction notification is ignored: no status check,
no selection, nothing dispatched, success returned. -/
theorem c10_v2_transactions_ignored (inner : Inner)
    (tx : ReplicaTransactionInfoV2) (slot : Nat) :
    notify_transaction (some inner) (.V0_0_2 tx) slot = .ok [] := rfl

namespace SnapshotEtl

namespace Serializer

/-- `MessageHeader` of the serializer crate (`geyser.rs`). -/
structure MessageHeader where
  num_required_signatures : Nat
  num_readonly_signed_accounts : Nat
  num_readonly_unsigned_accounts : Nat

/-- `LegacyMessage` of the serializer crate. -/
structure LegacyMessage where
  header : MessageHeader
  account_keys : List Pubkey
  recent_blockhash : List Nat
  instructions : List CompiledInstruction

/-- `MessageAddressTableLookup`. -/
structure MessageAddressTableLookup where
  account_key : Pubkey
  writable_indexes : List Nat
  readonly_indexes : List Nat

/-- `MessageV0` of the serializer crate. -/
structure MessageV0 where
  header : MessageHeader
  account_keys : List Pubkey
  recent_blockhash : List Nat
  instructions : List CompiledInstruction
  address_table_lookups : List MessageAddressTableLookup

/-- `LoadedAddresses` of the serializer crate. -/
structure LoadedAddresses where
  writable : List Pubkey
  readonly : List Pubkey

/-- `LoadedMessageV0`: a v0 message with its host-resolved addresses. -/
structure LoadedMessageV0 where
  message : MessageV0
  loaded_addresses : LoadedAddresses

/-- `SanitizedMessage` of the serializer crate: Legacy or V0. -/
inductive SanitizedMessage where
  | Legacy (m : LegacyMessage)
  | V0 (m : LoadedMessageV0)

/-- `SanitizedTransaction` of the serializer crate. -/
structure SanitizedTransaction where
  message : SanitizedMessage
  message_hash : List Nat
  is_simple_vote_tx : Bool
  signatures : List (List Nat)

/-- `TransactionNotify` of the serializer crate, with the full transaction
shape. -/
structure TransactionNotify where
  signature : List Nat
  is_vote : Bool
  slot : Nat
  transaction : SanitizedTransaction
  transaction_meta : TransactionStatusMeta

/-- `NftOffChainDataNotify` of the serializer crate (text fields). -/
structure NftOffChainDataNotify where
  pubkey : String
  uri : String
  slot : Nat
  is_startup : Bool

/-!
The flatbuffer encoder (`flatbuffer/mod.rs`) is modeled structurally: each
`T::create(&mut builder, &TArgs { .. })` call is modeled by the record of
values written into the table's fields. The finished byte buffer is a
function of this structural content alone, so two inputs with equal
structural content produce identical buffers, and a decoder can recover
exactly what the structural content retains.
-/

/-- Field content of the flatbuffer `Pubkey` table (`make_pubkey`). -/
structure FBPubkey where
  key : List Nat

/-- Field content of the flatbuffer `Signature` table (`make_signature`). -/
structure FBSignature where
  key : List Nat

/-- Field content of the flatbuffer `MessageHeader` table. -/
structure FBMessageHeader where
  num_required_signatures : Nat
  num_readonly_signed_accounts : Nat
  num_readonly_unsigned_accounts : Nat

/-- Field content of the flatbuffer `CompiledInstruction` table. -/
structure FBCompiledInstruction where
  program_id_index : Nat
  accounts : List Nat
  data : List Nat

/-- Field content of the flatbuffer `LegacyMessage` table. -/
structure FBLegacyMessage where
  header : FBMessageHeader
  account_keys : List FBPubkey
  recent_blockhash : List Nat
  instructions : List FBCompiledInstruction

/-- Field content of the flatbuffer `MessageAddressTableLookup` table. -/
structure FBMessageAddressTableLookup where
  account_key : FBPubkey
  writable_indexes : List Nat
  readonly_indexes : List Nat

/-- Field content of the flatbuffer `MessageV0` table. -/
structure FBMessageV0 where
  header : FBMessageHeader
  account_keys : List FBPubkey
  recent_blockhash : List Nat
  instructions : List FBCompiledInstruction
  address_table_lookups : List FBMessageAddressTableLookup

/-- Field content of the flatbuffer `LoadedAddresses` table. -/
structure FBLoadedAddresses where
  writable : List FBPubkey
  readonly : List FBPubkey

/-- Field content of the flatbuffer `LoadedMessageV0` table. -/
structure FBLoadedMessageV0 where
  message : FBMessageV0
  loaded_addresses : FBLoadedAddresses

/-- The `message_type` discriminant of the flatbuffer message union. -/
inductive FBSanitizedMessageKind where
  | Legacy
  | V0

/-- The flatbuffer message union value. -/
inductive FBMessageUnion where
  | legacy (m : FBLegacyMessage)
  | loadedV0 (m : FBLoadedMessageV0)

/-- Field content of the flatbuffer `SanitizedTransaction` table. -/
structure FBSanitizedTransaction where
  message_type : FBSanitizedMessageKind
  message : FBMessageUnion
  message_hash : List Nat
  is_simple_vote_tx : Bool
  signatures : List FBSignature

/-- The flatbuffer `RewardType` enumeration: the four source variants plus
the `None` sentinel written when the source reward type is absent. -/
inductive FBRewardType where
  | Fee
  | Rent
  | Staking
  | Voting
  | NoneSentinel

/-- Field content of the flatbuffer `UiTokenAmount` table: `ui_amount` is a
plain float, defaulted to `0.0` when the source value is absent. -/
structure FBUiTokenAmount where
  ui_amount : Float
  decimals : Nat
  amount : String
  ui_amount_string : String

/-- Field content of the flatbuffer `TransactionTokenBalance` table. -/
structure FBTransactionTokenBalance where
  account_index : Nat
  mint : String
  ui_token_amount : FBUiTokenAmount
  owner : String
  program_id : String

/-- Field content of the flatbuffer `Reward` table: `commission` is a plain
integer, defaulted to `0` when the source value is absent. -/
structure FBReward where
  pubkey : String
  lamports : Int
  post_balance : Nat
  reward_type : FBRewardType
  commission : Nat

/-- Field content of the flatbuffer `InnerInstructions` table. -/
structure FBInnerInstructions where
  index : Nat
  instructions : List FBCompiledInstruction

/-- Field content of the flatbuffer `TransactionStatusMeta` table: `status`
is the boolean `status.is_ok()`. -/
structure FBTransactionStatusMeta where
  status : Bool
  fee : Nat
  pre_balances : List Nat
  post_balances : List Nat
  inner_instructions : Option (List FBInnerInstructions)
  log_messages : Option (List String)
  pre_token_balances : Option (List FBTransactionTokenBalance)
  post_token_balances : Option (List FBTransactionTokenBalance)
  rewards : Option (List FBReward)

/-- Field content of the flatbuffer `TransactionInfo` root table. -/
structure FBTransactionInfo where
  signature : FBSignature
  is_vote : Bool
  slot : Nat
  transaction : FBSanitizedTransaction
  transaction_meta : FBTransactionStatusMeta

/-- `make_pubkey` of `serialize_transaction`: a `Pubkey` table holding the
key's byte vector. -/
def make_pubkey (key : Pubkey) : FBPubkey := ⟨key⟩

/-- `make_signature` of `serialize_transaction`. -/
def make_signature (signature : List Nat) : FBSignature := ⟨signature⟩

/-- Construction of a flatbuffer `MessageHeader` from a source header. -/
def encodeHeader (h : MessageHeader) : FBMessageHeader :=
  ⟨h.num_required_signatures, h.num_readonly_signed_accounts,
   h.num_readonly_unsigned_accounts⟩

/-- Construction of a flatbuffer `CompiledInstruction`. -/
def encodeCompiledInstruction (i : CompiledInstruction) : FBCompiledInstruction :=
  ⟨i.program_id_index, i.accounts, i.data⟩

/-- Construction of a flatbuffer `TransactionTokenBalance`: an absent
`ui_amount` is written as `0.0`. -/
def encodeTokenBalance (b : TransactionTokenBalance) : FBTransactionTokenBalance :=
  { account_index := b.account_index
  , mint := b.mint
  , ui_token_amount :=
      { ui_amount := match b.ui_token_amount.ui_amount with
          | some x => x
          | none => 0.0
      , decimals := b.ui_token_amount.decimals
      , amount := b.ui_token_amount.amount
      , ui_amount_string := b.ui_token_amount.ui_amount_string }
  , owner := b.owner
  , program_id := b.program_id }

/-- Construction of a flatbuffer `Reward`: an absent reward type is written
as the `None` sentinel and an absent commission as `0`. -/
def encodeReward (r : Reward) : FBReward :=
  { pubkey := r.pubkey
  , lamports := r.lamports
  , post_balance := r.post_balance
  , reward_type := match r.reward_type with
      | some .Fee => .Fee
      | some .Rent => .Rent
      | some .Staking => .Staking
      | some .Voting => .Voting
      | none => .NoneSentinel
  , commission := match r.commission with
      | some c => c
      | none => 0 }

/-- `FlatBufferSerialization::serialize_transaction`, as the structural
content of the finished buffer: the status result is written as the boolean
`is_ok()`. -/
def serialize_transaction (t : TransactionNotify) : FBTransactionInfo :=
  { signature := make_signature t.signature
  , is_vote := t.is_vote
  , slot := t.slot
  , transaction :=
      { message_type := match t.transaction.message with
          | .Legacy _ => .Legacy
          | .V0 _ => .V0
      , message := match t.transaction.message with
          | .Legacy lm =>
            .legacy
              { header := encodeHeader lm.header
              , account_keys := lm.account_keys.map make_pubkey
              , recent_blockhash := lm.recent_blockhash
              , instructions := lm.instructions.map encodeCompiledInstruction }
          | .V0 v0 =>
            .loadedV0
              { message :=
                  { header := encodeHeader v0.message.header
                  , account_keys := v0.message.account_keys.map make_pubkey
                  , recent_blockhash := v0.message.recent_blockhash
                  , instructions :=
                      v0.message.instructions.map encodeCompiledInstruction
                  , address_table_lookups :=
                      v0.message.address_table_lookups.map
                        (fun l => ⟨make_pubkey l.account_key,
                                   l.writable_indexes, l.readonly_indexes⟩) }
              , loaded_addresses :=
                  { writable := v0.loaded_addresses.writable.map make_pubkey
                  , readonly := v0.loaded_addresses.readonly.map make_pubkey } }
      , message_hash := t.transaction.message_hash
      , is_simple_vote_tx := t.transaction.is_simple_vote_tx
      , signatures := t.transaction.signatures.map make_signature }
  , transaction_meta :=
      { status := match t.transaction_meta.status with
          | .ok _ => true
          | .error _ => false
      , fee := t.transaction_meta.fee
      , pre_balances := t.transaction_meta.pre_balances
      , post_balances := t.transaction_meta.post_balances
      , inner_instructions := t.transaction_meta.inner_instructions.map
          (fun l => l.map (fun ii =>
            FBInnerInstructions.mk ii.index
              (ii.instructions.map encodeCompiledInstruction)))
      , log_messages := t.transaction_meta.log_messages
      , pre_token_balances := t.transaction_meta.pre_token_balances.map
          (fun l => l.map encodeTokenBalance)
      , post_token_balances := t.transaction_meta.post_token_balances.map
          (fun l => l.map encodeTokenBalance)
      , rewards := t.transaction_meta.rewards.map
          (fun l => l.map encodeReward) } }

/-- Field content of the flatbuffer `AccountInfo` root table. -/
structure FBAccountInfo where
  pubkey : FBPubkey
  lamports : Nat
  owner : FBPubkey
  executable : Bool
  rent_epoch : Nat
  data : List Nat
  write_version : Nat
  slot : Nat
  is_startup : Bool

/-- `FlatBufferSerialization::serialize_account`, as the structural content
of the finished buffer. -/
def serialize_account (account : AccountUpdate) : FBAccountInfo :=
  { pubkey := ⟨account.key⟩
  , lamports := account.lamports
  , owner := ⟨account.owner⟩
  , executable := account.executable
  , rent_epoch := account.rent_epoch
  , data := account.data
  , write_version := account.write_version
  , slot := account.slot
  , is_startup := account.is_startup }

/-- `NativeAccountInfo` of `flatbuffer/mod.rs`: the target of
`deserialize_account`; it has no `is_startup` field. -/
structure NativeAccountInfo where
  pubkey : Pubkey
  lamports : Nat
  owner : Pubkey
  executable : Bool
  rent_epoch : Nat
  data : List Nat
  write_version : Nat
  slot : Nat

/-- `deserialize_account` of `flatbuffer/mod.rs`. -/
def deserialize_account (account_info : FBAccountInfo) : NativeAccountInfo :=
  { pubkey := account_info.pubkey.key
  , lamports := account_info.lamports
  , owner := account_info.owner.key
  , executable := account_info.executable
  , rent_epoch := account_info.rent_epoch
  , data := account_info.data
  , write_version := account_info.write_version
  , slot := account_info.slot }

/-- Field content of the flatbuffer `MetadataOffChain` root table. -/
structure FBMetadataOffChain where
  pubkey : String
  uri : String
  slot : Nat
  is_startup : Bool

/-- `FlatBufferSerialization::serialize_nft_off_chain_data`. -/
def serialize_nft_off_chain_data (nft_off_chain_data : NftOffChainDataNotify) :
    FBMetadataOffChain :=
  { pubkey := nft_off_chain_data.pubkey
  , uri := nft_off_chain_data.uri
  , slot := nft_off_chain_data.slot
  , is_startup := nft_off_chain_data.is_startup }

/-- `deserialize_off_chain_data` of `flatbuffer/mod.rs`. -/
def deserialize_off_chain_data (off_chain_data : FBMetadataOffChain) :
    NftOffChainDataNotify :=
  { pubkey := off_chain_data.pubkey
  , uri := off_chain_data.uri
  , slot := off_chain_data.slot
  , is_startup := off_chain_data.is_startup }

/-- `FlatBufferSerialization::serialize_finalized_slot`: the buffer content
is the pushed `u64` itself. -/
def serialize_finalized_slot (slot : Nat) : Nat := slot

/-- `deserialize_finalized_slot` of `flatbuffer/mod.rs`. -/
def deserialize_finalized_slot (data : Nat) : Nat := data

/-- An empty legacy transaction used by the C5 counterexample. -/
def legacyEmptyTx : SanitizedTransaction :=
  { message := .Legacy ⟨⟨1, 0, 0⟩, [], List.replicate 32 0, []⟩
  , message_hash := List.replicate 32 0
  , is_simple_vote_tx := false
  , signatures := [] }

/-- A transaction notification whose single reward has `commission = None`. -/
def txNotifyA : TransactionNotify :=
  ⟨List.replicate 64 0, false, 3, legacyEmptyTx,
   ⟨.ok (), 5, [], [], none, none, none, none,
    some [⟨"p", 1, 2, some .Fee, none⟩]⟩⟩

/-- The same notification with `commission = Some 0` instead. -/
def txNotifyB : TransactionNotify :=
  ⟨List.replicate 64 0, false, 3, legacyEmptyTx,
   ⟨.ok (), 5, [], [], none, none, none, none,
    some [⟨"p", 1, 2, some .Fee, some 0⟩]⟩⟩

end Serializer

end SnapshotEtl

/-- C5 counterexample: no decoder can invert the compact binary transaction
encoder: two distinct transaction notifications (reward commission `None`
versus `Some 0`) produce identical encoder output, so
`decode(encode(value)) = value` fails for the binary encoder even though
the claim permits lossiness only for the textual encoder. -/
theorem c5_counterexample :
    ¬ ∃ dec : Serializer.FBTransactionInfo → Serializer.TransactionNotify,
        ∀ t, dec (Serializer.serialize_transaction t) = t := by
  rintro ⟨dec, hdec⟩
  have henc : Serializer.serialize_transaction Serializer.txNotifyA
      = Serializer.serialize_transaction Serializer.txNotifyB := rfl
  have hab : Serializer.txNotifyA = Serializer.txNotifyB := by
    rw [← hdec Serializer.txNotifyA, ← hdec Serializer.txNotifyB, henc]
  have hfields := congrArg (fun t => t.transaction_meta.rewards) hab
  simp [Serializer.txNotifyA, Serializer.txNotifyB] at hfields

/-- C5 (amended): round-trip identity holds for the message kinds for which
the repository defines decoders — account (every field except `is_startup`,
which `NativeAccountInfo` does not carry), off-chain data, and finalized
slot; the transaction encoder is not invertible (see the counterexample)
because it collapses the status result to a success boolean and defaults
absent `ui_amount`, `commission` and `reward_type` values. -/
theorem c5_roundtrip_amended :
    (∀ a : AccountUpdate,
      Serializer.deserialize_account (Serializer.serialize_account a)
        = ⟨a.key, a.lamports, a.owner, a.executable, a.rent_epoch, a.data,
           a.write_version, a.slot⟩)
    ∧ (∀ n : Serializer.NftOffChainDataNotify,
        Serializer.deserialize_off_chain_data
          (Serializer.serialize_nft_off_chain_data n) = n)
    ∧ (∀ s : Nat,
        Serializer.deserialize_finalized_slot
          (Serializer.serialize_finalized_slot s) = s) :=
  ⟨fun _ => rfl, fun _ => rfl, fun _ => rfl⟩
